import Mathlib

/-!
Verification of the streaming decode / accumulate logic of
`webscout/Provider/granite.py` (`IBMGranite.ask`) and of the severity-level
model of `webscout/Litlogger/core/level.py` (`LogLevel`), as a shallow
embedding in Lean.
-/

deriving instance DecidableEq for Except

namespace Litlogger

/-- Python `level_str.upper()`, modelled as per-character upper-casing
(faithful on the ASCII member names this lookup compares against). -/
def pyUpper (s : String) : String :=
  String.mk (s.data.map Char.toUpper)

/-- The `LogLevel` enumeration from `level.py`: five named severities. -/
inductive LogLevel where
  | DEBUG
  | INFO
  | WARNING
  | ERROR
  | CRITICAL
deriving DecidableEq, Repr, Fintype

/-- Numeric value of each member (`DEBUG = 10`, ..., `CRITICAL = 50`). -/
def LogLevel.value : LogLevel → Nat
  | .DEBUG => 10
  | .INFO => 20
  | .WARNING => 30
  | .ERROR => 40
  | .CRITICAL => 50

/-- Member name of each `LogLevel`, as Python's `LogLevel[...]` indexes it. -/
def LogLevel.memberName : LogLevel → String
  | .DEBUG => "DEBUG"
  | .INFO => "INFO"
  | .WARNING => "WARNING"
  | .ERROR => "ERROR"
  | .CRITICAL => "CRITICAL"

/-- Python `LogLevel[s]`: case-sensitive lookup of a member by its name; `none`
models the `KeyError` branch. -/
def LogLevel.memberLookup (s : String) : Option LogLevel :=
  if s = "DEBUG" then some .DEBUG
  else if s = "INFO" then some .INFO
  else if s = "WARNING" then some .WARNING
  else if s = "ERROR" then some .ERROR
  else if s = "CRITICAL" then some .CRITICAL
  else none

/-- Model of `LogLevel.get_level(level_str)`: upper-cases the argument, looks the
member up by name, and turns the `KeyError` into
`ValueError(f"Invalid log level: {level_str}")` (modelled as `Except.error`
carrying the message). -/
def LogLevel.get_level (level_str : String) : Except String LogLevel :=
  match LogLevel.memberLookup (pyUpper level_str) with
  | some l => Except.ok l
  | none => Except.error ("Invalid log level: " ++ level_str)

/-- The right operand of `LogLevel.__lt__` in Python is dynamically typed:
either another `LogLevel` instance or any non-`LogLevel` value. -/
inductive PyOperand where
  | level (l : LogLevel)
  | nonLevel
deriving DecidableEq, Repr

/-- Model of `LogLevel.__lt__`: for a `LogLevel` operand, compare numeric values;
for anything else return `NotImplemented` (modelled as `none`), so Python
rejects the comparison instead of producing an ordering result. -/
def LogLevel.lt (a : LogLevel) : PyOperand → Option Bool
  | .level b => some (decide (a.value < b.value))
  | .nonLevel => none

end Litlogger

namespace Granite

/-- JSON values as produced by Python's `json.loads` (the external JSON
collaborator). Numbers are modelled as integers; object keys are strings
(as they always are after `json.loads`) and entries are distinct. -/
inductive JValue where
  | null
  | bool (b : Bool)
  | num (n : Int)
  | str (s : String)
  | arr (elems : List JValue)
  | obj (entries : List (String × JValue))

/-- One line delivered by `response.iter_lines(decode_unicode=True)`,
already combined with the outcome of the external `json.loads` call:
`empty` is a falsy line (`if line:` skips it), `malformed` is a non-empty
line on which `json.loads` raises `JSONDecodeError`, and `parsed v` is a
non-empty line whose JSON parse yields `v`. -/
inductive ParsedLine where
  | empty
  | malformed
  | parsed (v : JValue)

/-- Python exceptions that the body of the per-line `try` can raise besides
`JSONDecodeError`: `len(data)` on an unsized value raises `TypeError`,
`data[0]` on a dict raises `KeyError`, on a short list `IndexError`. -/
inductive PyErr where
  | typeError (msg : String)
  | keyError (key : String)
  | indexError (msg : String)
deriving DecidableEq, Repr

/-- Message `str(e)` for the modelled Python exceptions (CPython message texts;
`str` of a `KeyError` is the `repr` of the key). -/
def PyErr.message : PyErr → String
  | .typeError m => m
  | .keyError k => k
  | .indexError m => m

/-- Python `len(data)`: defined for lists, strings and dicts; raises
`TypeError` for numbers, booleans and `None` (hence `none` here). -/
def lenPy : JValue → Option Nat
  | .arr xs => some xs.length
  | .str s => some s.data.length
  | .obj kvs => some kvs.length
  | _ => none

/-- Python type name, as it appears in `TypeError` messages. -/
def pyTypeName : JValue → String
  | .null => "NoneType"
  | .bool _ => "bool"
  | .num _ => "int"
  | .str _ => "str"
  | .arr _ => "list"
  | .obj _ => "dict"

/-- Python `data[i]` for a natural index `i`: list indexing (IndexError
past the end), string indexing (a one-character string), dict lookup with
the integer key `i` (always `KeyError`, since `json.loads` dicts have
string keys), `TypeError` for non-subscriptable values. -/
def pySubscript : JValue → Nat → Except PyErr JValue
  | .arr xs, i =>
    match xs[i]? with
    | some x => Except.ok x
    | none => Except.error (.indexError "list index out of range")
  | .str s, i =>
    match s.data[i]? with
    | some c => Except.ok (.str (String.mk [c]))
    | none => Except.error (.indexError "string index out of range")
  | .obj _, i => Except.error (.keyError (toString i))
  | v, _ => Except.error (.typeError (pyTypeName v ++ " object is not subscriptable"))

/-- Python `data[0] == 3`: true exactly for the integer `3` (booleans
compare as `0`/`1`, so neither equals `3`; any non-number compares
unequal). -/
def pyEqThree : JValue → Bool
  | .num n => n == 3
  | _ => false

/-- Outcome of processing one line inside the `for` loop: `skip` (no yield,
no append, continue), `frag content` (append `content` and yield), or
`err e` (an exception other than `JSONDecodeError` escapes the inner
`try`). -/
inductive LineResult where
  | skip
  | frag (content : String)
  | err (e : PyErr)

/-- The shape test
`len(data) == 2 and data[0] == 3 and isinstance(data[1], str)` together
with the extraction `content = data[1]`, evaluated with Python's
short-circuit semantics: `len` may raise `TypeError`; the subscripts are
only evaluated when the preceding conjuncts held. -/
def checkLine (data : JValue) : LineResult :=
  match lenPy data with
  | none => .err (.typeError ("object of type " ++ pyTypeName data ++ " has no len()"))
  | some n =>
    if n = 2 then
      match pySubscript data 0 with
      | Except.error e => .err e
      | Except.ok x0 =>
        if pyEqThree x0 then
          match pySubscript data 1 with
          | Except.error e => .err e
          | Except.ok (.str content) => .frag content
          | Except.ok _ => .skip
        else .skip
    else .skip

/-- One iteration of the `for line in response.iter_lines(...)` body:
falsy lines are skipped by `if line:`, `JSONDecodeError` from `json.loads`
is caught by the inner `except` and the loop continues, and a parsed value
goes through the shape test. -/
def lineStep : ParsedLine → LineResult
  | .empty => .skip
  | .malformed => .skip
  | .parsed v => checkLine v

/-- A value yielded by the generator: `content if raw else dict(text=content)`. -/
inductive Output where
  | rawStr (s : String)
  | record (text : String)
deriving DecidableEq, Repr

/-- The yield shape selected by the `raw` flag. -/
def mkOutput (raw : Bool) (content : String) : Output :=
  if raw then .rawStr content else .record content

/-- The fragment text carried by a yielded value. -/
def fragText : Output → String
  | .rawStr s => s
  | .record t => t

/-- Concatenation, in arrival order, of the fragment texts of a list of
yielded values. -/
def concatTexts : List Output → String
  | [] => ""
  | o :: rest => fragText o ++ concatTexts rest

/-- The `for` loop over the lines, threading the `streaming_text`
accumulator exactly as `streaming_text += content` does and collecting the
yielded values in order. An escaping exception aborts the loop; the values
yielded before it remain delivered. -/
def runLines (raw : Bool) : List ParsedLine → String → List Output × Except PyErr String
  | [], acc => ([], Except.ok acc)
  | l :: rest, acc =>
    match lineStep l with
    | .skip => runLines raw rest acc
    | .frag content =>
      let r := runLines raw rest (acc ++ content)
      (mkOutput raw content :: r.1, r.2)
    | .err e => ([], Except.error e)

/-- The exceptions `for_stream` surfaces to the caller, named as in
`webscout.exceptions` (spec names: `RequestFailure`/`GenerationFailure`
map to `FailedToGenerateResponseError`, `ConnectionFailure` to
`ProviderConnectionError`, `InvalidResponseError` is the dead outer
`JSONDecodeError` arm). Each carries its message string. -/
inductive WsError where
  | FailedToGenerateResponseError (msg : String)
  | ProviderConnectionError (msg : String)
  | InvalidResponseError (msg : String)
deriving DecidableEq, Repr

/-- The observable transport behaviour of one `session.post(..., stream=True)`
response: the status predicate `response.ok`, `response.status_code`,
`response.text`, the lines that `iter_lines` delivers (each already paired
with its `json.loads` outcome), and — when `interrupt = some cause` — a
`requests.exceptions.RequestException` with message `cause` that
`iter_lines` raises after those lines. -/
structure StreamInput where
  ok : Bool
  status_code : Nat
  text : String
  lines : List ParsedLine
  interrupt : Option String

/-- Everything one call of the `for_stream` generator does that is visible
to its caller and collaborators: the values yielded in order, the exception
it ends with (if any), the `text` field written into `self.last_response`
(only by the finalize step), and the `(prompt, final text)` exchanges
appended to the conversation history (only by the finalize step). The
client is modelled fresh, so `self.last_response` starts as `{}`. -/
structure AskResult where
  outputs : List Output
  error : Option WsError
  last_response : Option String
  history : List (String × String)
deriving DecidableEq, Repr

/-- Model of `for_stream` from `IBMGranite.ask`, run to exhaustion. The non-ok
branch raises `FailedToGenerateResponseError(msg)`; being an `Exception`,
that raise is caught by the generator's own `except Exception` arm and
re-raised as `FailedToGenerateResponseError(f"An unexpected error occurred: {e}")`.
A non-`JSONDecodeError` exception escaping a loop iteration takes the same
catch-all arm. A `RequestException` from `iter_lines` is caught by the
first `except` arm and re-raised as
`ProviderConnectionError(f"Request failed: {e}")`. When the line source is
exhausted normally, the finalize step runs: `self.last_response` receives
`dict(text=streaming_text)` and
`conversation.update_chat_history(prompt, streaming_text)` appends the
exchange. -/
def for_stream (prompt : String) (raw : Bool) (response : StreamInput) : AskResult :=
  if response.ok then
    match runLines raw response.lines "" with
    | (outs, Except.error e) =>
      { outputs := outs
        error := some (.FailedToGenerateResponseError
          ("An unexpected error occurred: " ++ PyErr.message e))
        last_response := none
        history := [] }
    | (outs, Except.ok streaming_text) =>
      match response.interrupt with
      | some cause =>
        { outputs := outs
          error := some (.ProviderConnectionError ("Request failed: " ++ cause))
          last_response := none
          history := [] }
      | none =>
        { outputs := outs
          error := none
          last_response := some streaming_text
          history := [(prompt, streaming_text)] }
  else
    { outputs := []
      error := some (.FailedToGenerateResponseError
        ("An unexpected error occurred: Request failed with status code "
          ++ toString response.status_code ++ ": " ++ response.text))
      last_response := none
      history := [] }

/-- Model of `for_non_stream` from `IBMGranite.ask`: drains `for_stream` to
completion (`for _ in for_stream(): pass`) and returns `self.last_response`
(its `text` field in this model); an exception raised while draining
propagates to the caller. -/
def for_non_stream (prompt : String) (raw : Bool) (response : StreamInput) :
    Except WsError (Option String) :=
  match (for_stream prompt raw response).error with
  | some e => Except.error e
  | none => Except.ok (for_stream prompt raw response).last_response

/-- Valid fragment shape: a 2-element array whose first element is the
integer `3` and whose second element is a string. -/
def validShape : JValue → Bool
  | .arr [.num 3, .str _] => true
  | _ => false

/-- Parsed shapes the loop skips silently: any string, any array other than
a valid fragment, and any object without exactly 2 entries. -/
def skipShape (v : JValue) : Bool :=
  match v with
  | .str _ => true
  | .arr _ => !validShape v
  | .obj kvs => decide (kvs.length ≠ 2)
  | _ => false

/-- Parsed shapes on which the loop body raises instead of skipping:
numbers, booleans and null (no `len()`), and 2-entry objects (integer
subscript raises `KeyError`). -/
def fatalShape : JValue → Bool
  | .null => true
  | .bool _ => true
  | .num _ => true
  | .obj kvs => decide (kvs.length = 2)
  | _ => false

theorem checkLine_skip_of_skipShape (v : JValue) (h : skipShape v = true) :
    checkLine v = .skip := by
  cases v with
  | null => simp [skipShape] at h
  | bool b => simp [skipShape] at h
  | num n => simp [skipShape] at h
  | str s =>
    obtain ⟨d⟩ := s
    cases d with
    | nil => simp [checkLine, lenPy]
    | cons c cs =>
      simp only [checkLine, lenPy, pySubscript, List.getElem?_cons_zero]
      split
      · simp [pyEqThree]
      · rfl
  | obj kvs =>
    simp only [skipShape, decide_eq_true_eq] at h
    simp [checkLine, lenPy, h]
  | arr xs =>
    rcases xs with _ | ⟨x0, _ | ⟨x1, _ | ⟨x2, rest⟩⟩⟩
    · simp [checkLine, lenPy]
    · simp [checkLine, lenPy]
    · simp only [skipShape, Bool.not_eq_eq_eq_not, Bool.not_true] at h
      cases x0 with
      | num n =>
        by_cases h3 : n = 3
        · subst h3
          cases x1 with
          | str s => simp [validShape] at h
          | null => simp [checkLine, lenPy, pySubscript, pyEqThree]
          | bool b => simp [checkLine, lenPy, pySubscript, pyEqThree]
          | num m => simp [checkLine, lenPy, pySubscript, pyEqThree]
          | arr ys => simp [checkLine, lenPy, pySubscript, pyEqThree]
          | obj kvs => simp [checkLine, lenPy, pySubscript, pyEqThree]
        · simp [checkLine, lenPy, pySubscript, pyEqThree, h3]
      | null => simp [checkLine, lenPy, pySubscript, pyEqThree]
      | bool b => simp [checkLine, lenPy, pySubscript, pyEqThree]
      | str s => simp [checkLine, lenPy, pySubscript, pyEqThree]
      | arr ys => simp [checkLine, lenPy, pySubscript, pyEqThree]
      | obj kvs => simp [checkLine, lenPy, pySubscript, pyEqThree]
    · simp [checkLine, lenPy]

theorem checkLine_err_of_fatalShape (v : JValue) (h : fatalShape v = true) :
    ∃ e, checkLine v = .err e := by
  cases v with
  | null => exact ⟨_, rfl⟩
  | bool b => exact ⟨_, rfl⟩
  | num n => exact ⟨_, rfl⟩
  | str s => simp [fatalShape] at h
  | arr xs => simp [fatalShape] at h
  | obj kvs =>
    simp only [fatalShape, decide_eq_true_eq] at h
    exact ⟨.keyError (toString 0), by simp [checkLine, lenPy, pySubscript, h]⟩

theorem fragText_mkOutput (raw : Bool) (content : String) :
    fragText (mkOutput raw content) = content := by
  cases raw <;> rfl

theorem runLines_skip_cons (raw : Bool) (l : ParsedLine) (rest : List ParsedLine)
    (acc : String) (h : lineStep l = .skip) :
    runLines raw (l :: rest) acc = runLines raw rest acc := by
  simp [runLines, h]

theorem runLines_malformed (raw : Bool) (pre post : List ParsedLine) (acc : String) :
    runLines raw (pre ++ ParsedLine.malformed :: post) acc =
      runLines raw (pre ++ post) acc := by
  induction pre generalizing acc with
  | nil => simpa using runLines_skip_cons raw .malformed post acc rfl
  | cons l rest ih =>
    simp only [List.cons_append, runLines]
    cases h : lineStep l with
    | skip => exact ih acc
    | frag content => simp [ih]
    | err e => rfl

theorem runLines_ok_concat (raw : Bool) :
    ∀ (ls : List ParsedLine) (acc : String) (outs : List Output) (t : String),
      runLines raw ls acc = (outs, Except.ok t) → t = acc ++ concatTexts outs := by
  intro ls
  induction ls with
  | nil =>
    intro acc outs t h
    simp only [runLines, Prod.mk.injEq] at h
    obtain ⟨h1, h2⟩ := h
    cases h2
    simp [← h1, concatTexts, String.append_empty]
  | cons l rest ih =>
    intro acc outs t h
    simp only [runLines] at h
    cases hs : lineStep l with
    | skip => rw [hs] at h; exact ih acc outs t h
    | err e => rw [hs] at h; simp at h
    | frag content =>
      rw [hs] at h
      simp only [Prod.mk.injEq] at h
      obtain ⟨h1, h2⟩ := h
      have ht := ih (acc ++ content) (runLines raw rest (acc ++ content)).1 t ?_
      · rw [← h1]
        simp [concatTexts, fragText_mkOutput, ht, String.append_assoc]
      · rw [← h2]

theorem for_stream_success_spec (prompt : String) (raw : Bool) (inp : StreamInput)
    (h : (for_stream prompt raw inp).error = none) :
    (for_stream prompt raw inp).last_response
        = some (concatTexts (for_stream prompt raw inp).outputs) ∧
    (for_stream prompt raw inp).history
        = [(prompt, concatTexts (for_stream prompt raw inp).outputs)] := by
  revert h
  unfold for_stream
  cases hok : inp.ok with
  | false => simp
  | true =>
    simp only [if_true]
    rcases hrun : runLines raw inp.lines "" with ⟨outs, res⟩
    cases res with
    | error e => simp
    | ok t =>
      cases hint : inp.interrupt with
      | some cause => simp
      | none =>
        intro _
        have ht : t = "" ++ concatTexts outs :=
          runLines_ok_concat raw inp.lines "" outs t hrun
        rw [String.empty_append] at ht
        simp [ht]

theorem for_stream_failure_spec (prompt : String) (raw : Bool) (inp : StreamInput)
    (h : (for_stream prompt raw inp).error ≠ none) :
    (for_stream prompt raw inp).last_response = none ∧
    (for_stream prompt raw inp).history = [] := by
  revert h
  unfold for_stream
  cases hok : inp.ok with
  | false => simp
  | true =>
    simp only [if_true]
    rcases hrun : runLines raw inp.lines "" with ⟨outs, res⟩
    cases res with
    | error e => simp
    | ok t =>
      cases hint : inp.interrupt with
      | some cause => simp
      | none => simp

end Granite

open Litlogger Granite

/-- C1: on the input lines `['[3,"Hello"]', '', 'not json', '[3," world"]']`
the decode in normal mode yields exactly the record `{text: "Hello"}`
followed by `{text: " world"}` — the blank line and the malformed line
produce no fragment — and the final accumulated text is `"Hello world"`;
on the same lines in raw mode it yields exactly the bare strings
`"Hello"` and `" world"`. -/
theorem granite_example_lines_decode :
    for_stream "p" false
        { ok := true, status_code := 200, text := "",
          lines := [ParsedLine.parsed (.arr [.num 3, .str "Hello"]), ParsedLine.empty,
            ParsedLine.malformed, ParsedLine.parsed (.arr [.num 3, .str " world"])],
          interrupt := none }
      = { outputs := [Output.record "Hello", Output.record " world"], error := none,
          last_response := some "Hello world", history := [("p", "Hello world")] } ∧
    (for_stream "p" true
        { ok := true, status_code := 200, text := "",
          lines := [ParsedLine.parsed (.arr [.num 3, .str "Hello"]), ParsedLine.empty,
            ParsedLine.malformed, ParsedLine.parsed (.arr [.num 3, .str " world"])],
          interrupt := none }).outputs
      = [Output.rawStr "Hello", Output.rawStr " world"] := by
  decide

/-- C2 counterexample: a line that parses as the JSON number `5` is not a
2-element sequence, yet the decoder does not skip it and continue — the
`len(data)` call raises `TypeError`, which the inner
`except json.JSONDecodeError` does not catch, so the catch-all arm
terminates the whole decode with `FailedToGenerateResponseError` and the
valid fragment on the following line is never yielded. -/
theorem granite_scalar_json_line_raises :
    for_stream "p" false
        { ok := true, status_code := 200, text := "",
          lines := [ParsedLine.parsed (JValue.num 5),
            ParsedLine.parsed (.arr [.num 3, .str "later"])],
          interrupt := none }
      = { outputs := [],
          error := some (WsError.FailedToGenerateResponseError
            "An unexpected error occurred: object of type int has no len()"),
          last_response := none, history := [] } := by
  decide

/-- C2 (amended): a line that parses as JSON but is not `[3, "<text>"]` is
skipped — no fragment yielded, nothing appended, decode continues with the
next line — exactly when the parsed value is a string, an array other than
the valid fragment shape, or an object without exactly two entries; a line
that parses to a number, a boolean, `null`, or a two-entry object instead
raises an exception that terminates the decode, yielding no fragment for
that line or any later line. -/
theorem granite_unrecognized_line_cases (v : JValue) (ls : List ParsedLine)
    (acc : String) (raw : Bool) :
    (skipShape v = true →
      runLines raw (ParsedLine.parsed v :: ls) acc = runLines raw ls acc) ∧
    (fatalShape v = true →
      ∃ e, runLines raw (ParsedLine.parsed v :: ls) acc = ([], Except.error e)) := by
  constructor
  · intro h
    exact runLines_skip_cons raw _ ls acc (checkLine_skip_of_skipShape v h)
  · intro h
    obtain ⟨e, he⟩ := checkLine_err_of_fatalShape v h
    exact ⟨e, by simp [runLines, lineStep, he]⟩

/-- Witness for the amended C2: a wrong-tag array line is dropped without
affecting the rest of the decode, and a `null` line terminates the decode
with an error. -/
theorem granite_unrecognized_line_cases_witness :
    (runLines false [ParsedLine.parsed (.arr [.num 5, .str "x"]),
        ParsedLine.parsed (.arr [.num 3, .str "hi"])] ""
      = runLines false [ParsedLine.parsed (.arr [.num 3, .str "hi"])] "") ∧
    (∃ e, runLines false [ParsedLine.parsed JValue.null] ""
      = ([], Except.error e)) :=
  ⟨(granite_unrecognized_line_cases (.arr [.num 5, .str "x"])
      [ParsedLine.parsed (.arr [.num 3, .str "hi"])] "" false).1 (by decide),
   (granite_unrecognized_line_cases JValue.null [] "" false).2 (by decide)⟩

/-- C3: a non-empty line on which the JSON parse fails is skipped and the
decode continues with the remaining lines — the parse failure is never
surfaced to the caller, and the result (yields, accumulated text, finalize,
error state) is the same as if the malformed line had not been there, so
every valid fragment on a later line is still yielded and accumulated. -/
theorem granite_parse_failure_skipped (prompt : String) (raw ok : Bool) (sc : Nat)
    (body : String) (itr : Option String) (pre post : List ParsedLine) :
    for_stream prompt raw
        { ok := ok, status_code := sc, text := body,
          lines := pre ++ ParsedLine.malformed :: post, interrupt := itr }
      = for_stream prompt raw
          { ok := ok, status_code := sc, text := body, lines := pre ++ post,
            interrupt := itr } := by
  simp [for_stream, runLines_malformed]

/-- C4: when the line source raises a transport error (a
`requests.exceptions.RequestException`) after delivering some lines, the
decode yields exactly the fragments of those lines and then raises
`ProviderConnectionError` (the spec's `ConnectionFailure`); the finalize
step does not run — `last_response` is not written and no history entry is
appended. -/
theorem granite_midstream_interrupt_connection_failure (prompt : String) (raw : Bool)
    (inp : StreamInput) (cause : String) (outs : List Output) (t : String)
    (hok : inp.ok = true) (hint : inp.interrupt = some cause)
    (hrun : runLines raw inp.lines "" = (outs, Except.ok t)) :
    for_stream prompt raw inp
      = { outputs := outs,
          error := some (WsError.ProviderConnectionError ("Request failed: " ++ cause)),
          last_response := none, history := [] } := by
  simp [for_stream, hok, hrun, hint]

/-- Witness for C4: one valid fragment is yielded, then the interrupt
surfaces as a `ProviderConnectionError` and no finalize occurs. -/
theorem granite_midstream_interrupt_connection_failure_witness :
    for_stream "p" false
        { ok := true, status_code := 200, text := "",
          lines := [ParsedLine.parsed (.arr [.num 3, .str "Hi"])],
          interrupt := some "Connection aborted" }
      = { outputs := [Output.record "Hi"],
          error := some (WsError.ProviderConnectionError
            ("Request failed: " ++ "Connection aborted")),
          last_response := none, history := [] } :=
  granite_midstream_interrupt_connection_failure "p" false _ "Connection aborted"
    [Output.record "Hi"] "Hi" rfl rfl (by decide)

/-- C5: when the transport reports a non-ok status before any line is read,
the decode yields no fragment and raises a `FailedToGenerateResponseError`
(the spec's `RequestFailure`) whose message carries the status code and the
body text; decode never starts and no finalize or history update occurs.
(The original raise is re-wrapped by the generator's own catch-all arm,
which prefixes the message but preserves the error kind and content.) -/
theorem granite_non_ok_status_request_failure (prompt : String) (raw : Bool)
    (inp : StreamInput) (h : inp.ok = false) :
    for_stream prompt raw inp
      = { outputs := [],
          error := some (WsError.FailedToGenerateResponseError
            ("An unexpected error occurred: Request failed with status code "
              ++ toString inp.status_code ++ ": " ++ inp.text)),
          last_response := none, history := [] } := by
  simp [for_stream, h]

/-- Witness for C5: a 403 response with body text surfaces both in the
error message, with no fragment yielded and no finalize. -/
theorem granite_non_ok_status_request_failure_witness :
    for_stream "p" false
        { ok := false, status_code := 403, text := "Forbidden", lines := [],
          interrupt := none }
      = { outputs := [],
          error := some (WsError.FailedToGenerateResponseError
            ("An unexpected error occurred: Request failed with status code "
              ++ toString (403 : Nat) ++ ": " ++ "Forbidden")),
          last_response := none, history := [] } :=
  granite_non_ok_status_request_failure "p" false _ rfl

/-- C6: when the decode ends without an unrecovered error, the finalize
step runs exactly once — the final accumulated text equals the
concatenation, in arrival order, of all yielded fragment texts, it is
written to `last_response`, and exactly one `(prompt, final text)` exchange
is handed to the conversation-history collaborator; when the decode ends
with an error, finalize never runs. -/
theorem granite_finalize_exactly_on_success (prompt : String) (raw : Bool)
    (inp : StreamInput) :
    ((for_stream prompt raw inp).error = none →
      (for_stream prompt raw inp).last_response
          = some (concatTexts (for_stream prompt raw inp).outputs) ∧
      (for_stream prompt raw inp).history
          = [(prompt, concatTexts (for_stream prompt raw inp).outputs)]) ∧
    ((for_stream prompt raw inp).error ≠ none →
      (for_stream prompt raw inp).last_response = none ∧
      (for_stream prompt raw inp).history = []) :=
  ⟨for_stream_success_spec prompt raw inp, for_stream_failure_spec prompt raw inp⟩

/-- Witness for C6: a two-fragment stream finalizes with the concatenated
text as the single history exchange. -/
theorem granite_finalize_exactly_on_success_witness :
    (for_stream "q" false
        { ok := true, status_code := 200, text := "",
          lines := [ParsedLine.parsed (.arr [.num 3, .str "a"]),
            ParsedLine.parsed (.arr [.num 3, .str "b"])],
          interrupt := none }).history
      = [("q", concatTexts (for_stream "q" false
          { ok := true, status_code := 200, text := "",
            lines := [ParsedLine.parsed (.arr [.num 3, .str "a"]),
              ParsedLine.parsed (.arr [.num 3, .str "b"])],
            interrupt := none }).outputs)] :=
  ((granite_finalize_exactly_on_success "q" false _).1 (by decide)).2

/-- C7: the decode output is a deterministic function of the input lines
and the raw-mode flag — two separate sessions over the same static list of
lines (here even with different prompts, status codes and body texts)
produce identical fragment sequences and identical final accumulated
text. -/
theorem granite_decode_deterministic (p q : String) (raw : Bool) (a b : StreamInput)
    (ha : a.ok = true) (hb : b.ok = true) (hl : a.lines = b.lines)
    (hia : a.interrupt = none) (hib : b.interrupt = none) :
    (for_stream p raw a).outputs = (for_stream q raw b).outputs ∧
    (for_stream p raw a).last_response = (for_stream q raw b).last_response := by
  simp only [for_stream, ha, hb, hl, hia, hib, if_true]
  rcases hrun : runLines raw b.lines "" with ⟨outs, res⟩
  cases res <;> simp

/-- Witness for C7: two sessions with different prompts and transport
metadata but the same lines yield the same fragments. -/
theorem granite_decode_deterministic_witness :
    (for_stream "p1" true
        { ok := true, status_code := 200, text := "a",
          lines := [ParsedLine.parsed (.arr [.num 3, .str "z"])],
          interrupt := none }).outputs
      = (for_stream "p2" true
          { ok := true, status_code := 500, text := "b",
            lines := [ParsedLine.parsed (.arr [.num 3, .str "z"])],
            interrupt := none }).outputs :=
  (granite_decode_deterministic "p1" "p2" true _ _ rfl rfl rfl rfl rfl).1

/-- C8: for each of the five defined severity names in any letter case,
`get_level` returns the corresponding level, whose numeric values are
`10, 20, 30, 40, 50`; for every other string it fails with
`ValueError("Invalid log level: ...")` reporting the offending text. -/
theorem litlogger_get_level_spec (s : String) :
    (∀ l : LogLevel, pyUpper s = LogLevel.memberName l →
      LogLevel.get_level s = Except.ok l) ∧
    ((∀ l : LogLevel, pyUpper s ≠ LogLevel.memberName l) →
      LogLevel.get_level s = Except.error ("Invalid log level: " ++ s)) ∧
    (LogLevel.value .DEBUG = 10 ∧ LogLevel.value .INFO = 20 ∧
      LogLevel.value .WARNING = 30 ∧ LogLevel.value .ERROR = 40 ∧
      LogLevel.value .CRITICAL = 50) := by
  refine ⟨?_, ?_, by decide⟩
  · intro l h
    cases l <;> simp_all [LogLevel.get_level, LogLevel.memberLookup, LogLevel.memberName]
  · intro h
    have h1 := h .DEBUG
    have h2 := h .INFO
    have h3 := h .WARNING
    have h4 := h .ERROR
    have h5 := h .CRITICAL
    simp only [LogLevel.memberName] at h1 h2 h3 h4 h5
    simp [LogLevel.get_level, LogLevel.memberLookup, h1, h2, h3, h4, h5]

/-- Witness for C8: a mixed-case defined name succeeds and an unknown name
fails with the reported text. -/
theorem litlogger_get_level_spec_witness :
    LogLevel.get_level "criTical" = Except.ok LogLevel.CRITICAL ∧
    LogLevel.get_level "fatal" = Except.error ("Invalid log level: " ++ "fatal") :=
  ⟨(litlogger_get_level_spec "criTical").1 .CRITICAL (by decide),
   (litlogger_get_level_spec "fatal").2.1 (by decide)⟩

/-- C9: comparison of levels is consistent with their numeric values and is
a strict total order — transitive, asymmetric, and for each pair exactly
one of less, equal, greater holds — while comparing a level to a non-level
value is rejected (`NotImplemented`) rather than producing an ordering
result. -/
theorem litlogger_level_order_spec :
    (∀ a b : LogLevel, LogLevel.lt a (PyOperand.level b)
        = some (decide (LogLevel.value a < LogLevel.value b))) ∧
    (∀ a b c : LogLevel, LogLevel.lt a (PyOperand.level b) = some true →
      LogLevel.lt b (PyOperand.level c) = some true →
      LogLevel.lt a (PyOperand.level c) = some true) ∧
    (∀ a b : LogLevel, LogLevel.lt a (PyOperand.level b) = some true →
      LogLevel.lt b (PyOperand.level a) = some false) ∧
    (∀ a b : LogLevel,
      (LogLevel.lt a (PyOperand.level b) = some true ∧ a ≠ b
          ∧ LogLevel.lt b (PyOperand.level a) = some false) ∨
      (a = b ∧ LogLevel.lt a (PyOperand.level b) = some false
          ∧ LogLevel.lt b (PyOperand.level a) = some false) ∨
      (LogLevel.lt b (PyOperand.level a) = some true ∧ a ≠ b
          ∧ LogLevel.lt a (PyOperand.level b) = some false)) ∧
    (∀ a : LogLevel, LogLevel.lt a PyOperand.nonLevel = none) := by
  refine ⟨?_, ?_, ?_, ?_, ?_⟩ <;> decide

/-- Witness for C9: transitivity applied at DEBUG < INFO < WARNING. -/
theorem litlogger_level_order_spec_witness :
    LogLevel.lt LogLevel.DEBUG (PyOperand.level LogLevel.WARNING) = some true :=
  litlogger_level_order_spec.2.1 LogLevel.DEBUG LogLevel.INFO LogLevel.WARNING
    (by decide) (by decide)

/-- C10: the non-streaming path drains the same streaming decode to
completion and returns `last_response`, whose text equals the final
accumulated text the streaming path produces over the same lines — the
concatenation of all fragments it yields; an error raised while draining
propagates to the caller unchanged. -/
theorem granite_non_stream_equiv_stream (prompt : String) (raw : Bool)
    (inp : StreamInput) :
    ((for_stream prompt raw inp).error = none →
      for_non_stream prompt raw inp
        = Except.ok (some (concatTexts (for_stream prompt raw inp).outputs))) ∧
    (∀ e, (for_stream prompt raw inp).error = some e →
      for_non_stream prompt raw inp = Except.error e) := by
  constructor
  · intro h
    have hs := for_stream_success_spec prompt raw inp h
    simp only [for_non_stream, h]
    rw [hs.1]
  · intro e he
    simp only [for_non_stream, he]

/-- Witness for C10: draining a two-fragment stream returns the
concatenated accumulated text. -/
theorem granite_non_stream_equiv_stream_witness :
    for_non_stream "p" false
        { ok := true, status_code := 200, text := "",
          lines := [ParsedLine.parsed (.arr [.num 3, .str "A"]),
            ParsedLine.parsed (.arr [.num 3, .str "B"])],
          interrupt := none }
      = Except.ok (some (concatTexts (for_stream "p" false
          { ok := true, status_code := 200, text := "",
            lines := [ParsedLine.parsed (.arr [.num 3, .str "A"]),
              ParsedLine.parsed (.arr [.num 3, .str "B"])],
            interrupt := none }).outputs)) :=
  (granite_non_stream_equiv_stream "p" false _).1 (by decide)
